import Mathlib

/-!
Verification of the mcp-android-server-python tool layer.

Each tool endpoint in the repository is a thin wrapper: connect to a device
through the external uiautomator2 library, issue one underlying call, and map
the outcome (value or raised exception) to a plain result.  We embed each tool
as a total Lean function over an environment that records the outcome of every
underlying external call of one invocation: a field of type Except String A
is the outcome of one library or bridge call (ok = normal return, error =
raised exception carrying its message).  Python try/except blocks become
matches on those Except values, exactly following the control flow of the
source; Python dicts become association lists of a Value type.
-/

namespace McpAndroid

/-- Value is the embedding of the Python values that flow through the wrapper
responses: strings, booleans, integers, dicts and None. -/
inductive Value where
  | str : String → Value
  | bool : Bool → Value
  | int : Int → Value
  | dict : List (String × Value) → Value
  | null : Value
deriving Repr

/-- PyDict embeds a Python dict with string keys. -/
abbrev PyDict := List (String × Value)

/-- pyGet embeds dict.get(key, default). -/
def pyGet (l : PyDict) (k : String) (dflt : Value) : Value :=
  (l.lookup k).getD dflt

/-- vGet embeds value.get(key, default): defined on dict values, and raises
AttributeError on every other value, as Python does. -/
def vGet (v : Value) (k : String) (dflt : Value) : Except String Value :=
  match v with
  | .dict l => .ok (pyGet l k dflt)
  | _ => .error "AttributeError: get"

/-- pyIndex embeds dict[key]: the stored value, or a raised KeyError. -/
def pyIndex (l : PyDict) (k : String) : Except String Value :=
  match l.lookup k with
  | some v => .ok v
  | none => .error ("KeyError: " ++ k)

/-- truthyV embeds Python truthiness of a Value. -/
def truthyV : Value → Bool
  | .str s => s != ""
  | .bool b => b
  | .int i => i != 0
  | .dict l => !l.isEmpty
  | .null => false

/-- pyOrStr embeds the Python expression a or b on optional strings
(None and the empty string are falsy), as used in d.serial or device_id. -/
def pyOrStr (a b : Option String) : Option String :=
  match a with
  | some s => if s == "" then b else some s
  | none => b

/-! String helpers mirroring the Python string methods used by the
device-enumeration parser.  They are written by structural recursion on the
character list so that every concrete evaluation reduces in the kernel. -/

/-- stripChars drops leading and trailing whitespace characters. -/
def stripChars (l : List Char) : List Char :=
  ((l.dropWhile Char.isWhitespace).reverse.dropWhile Char.isWhitespace).reverse

/-- pyStrip embeds str.strip() with the default whitespace argument. -/
def pyStrip (s : String) : String :=
  String.mk (stripChars s.toList)

/-- splitOnChar splits a character list at every occurrence of the given
character, keeping empty pieces (the behaviour of str.split with an explicit
separator). -/
def splitOnChar (c : Char) : List Char → List (List Char)
  | [] => [[]]
  | a :: as =>
    let r := splitOnChar c as
    if a = c then [] :: r
    else
      match r with
      | h :: t => (a :: h) :: t
      | [] => [[a]]

/-- pySplitlines embeds str.splitlines() for newline-terminated bridge output:
the text is cut at every linefeed character. -/
def pySplitlines (s : String) : List String :=
  (splitOnChar '\n' s.toList).map String.mk

/-- splitWsChar splits a character list at every whitespace character,
keeping empty pieces. -/
def splitWsChar : List Char → List (List Char)
  | [] => [[]]
  | a :: as =>
    let r := splitWsChar as
    if a.isWhitespace then [] :: r
    else
      match r with
      | h :: t => (a :: h) :: t
      | [] => [[a]]

/-- pySplitWs embeds str.split() with no argument: split on whitespace runs,
discarding empty pieces. -/
def pySplitWs (s : String) : List String :=
  ((splitWsChar s.toList).map String.mk).filter (fun p => p != "")

/-! Device-enumeration parsing.  The loop below appears verbatim in
check_adb_and_list_devices, get_device_status and connect_device
(device_tools.py): iterate over the output lines after the header, and for
each non-blank line split on whitespace and keep the first token of rows
whose second token equals "device". -/

/-- parseDeviceLoop embeds the Python accumulation loop over the lines that
follow the header line of the bridge "devices" output. -/
def parseDeviceLoop : List String → List String
  | [] => []
  | line :: rest =>
    if pyStrip line != "" then
      let parts := pySplitWs line
      if parts.length ≥ 2 ∧ parts.get? 1 = some "device" then
        parts.headD "" :: parseDeviceLoop rest
      else
        parseDeviceLoop rest
    else
      parseDeviceLoop rest

/-- parse_adb_devices embeds the full parsing of the bridge output:
result.stdout.strip().splitlines(), then the loop over lines[1:]. -/
def parse_adb_devices (stdout : String) : List String :=
  parseDeviceLoop ((pySplitlines (pyStrip stdout)).drop 1)

/-! The element objects returned by the library selector calls.  An El
records the Python-level observations the wrapper makes on such an object:
its truthiness, whether it is None, and the outcome of each attribute access
or gesture call performed on it. -/

/-- El records the observable behaviour of one library element object during
one tool invocation. -/
structure El where
  truthy : Bool
  isNone : Bool
  ex : Except String Bool
  click_act : Except String Unit
  long_click_act : Rat → Except String Unit
  drag_act : Int → Int → Except String Unit
  elInfo : Except String PyDict

/-- elDefault is a found, inert element with empty info. -/
def elDefault : El :=
  ⟨true, false, .ok true, .ok (), fun _ => .ok (), fun _ _ => .ok (), .ok []⟩

/-- Env records the outcome of every external call one tool invocation can
make: the bridge lookup and subprocess run, the uiautomator2 connect, and the
device and element methods.  Error values are raised Python exceptions with
their message. -/
structure Env where
  adb_path : Option String
  adb_devices : Except String String
  connect : Option String → Except String Unit
  serial : Option String
  devInfo : Except String PyDict
  window_size : Except String (Int × Int)
  battery_info : Except String Value
  wlan_ip : Except String String
  screen_on_call : Except String Bool
  screen_off_call : Except String Unit
  screen_polls : Nat → Except String Bool
  unlock : Except String Unit
  app_list : Except String (List String)
  app_current : Except String PyDict
  app_start : String → Except String Unit
  app_wait : String → Except String (Option Nat)
  app_stop : String → Except String Unit
  app_stop_all : Except String Unit
  app_clear : String → Except String Unit
  press : String → Except String Unit
  swipe_call : Rat → Rat → Rat → Rat → Rat → Except String Unit
  send_keys : String → Bool → Except String Unit
  screenshot_call : String → Except String Unit
  dump_call : Bool → Bool → Int → Except String String
  toast_get : Except String (Option String)
  wait_activity_call : String → Rat → Except String Bool
  wait_text : String → Rat → Except String El
  wait_resourceId : String → Rat → Except String El
  wait_description : String → Rat → Except String El
  sel_text : String → El
  sel_resourceId : String → El
  sel_description : String → El
  scroll_text : String → Except String El
  scroll_resourceId : String → Except String El
  scroll_description : String → Except String El

/-- envDefault is a benign environment in which every external call returns a
plain default value. -/
def envDefault : Env where
  adb_path := some "adb"
  adb_devices := .ok ""
  connect := fun _ => .ok ()
  serial := none
  devInfo := .ok []
  window_size := .ok (0, 0)
  battery_info := .ok (.dict [])
  wlan_ip := .ok ""
  screen_on_call := .ok true
  screen_off_call := .ok ()
  screen_polls := fun _ => .ok true
  unlock := .ok ()
  app_list := .ok []
  app_current := .ok []
  app_start := fun _ => .ok ()
  app_wait := fun _ => .ok (some 1)
  app_stop := fun _ => .ok ()
  app_stop_all := .ok ()
  app_clear := fun _ => .ok ()
  press := fun _ => .ok ()
  swipe_call := fun _ _ _ _ _ => .ok ()
  send_keys := fun _ _ => .ok ()
  screenshot_call := fun _ => .ok ()
  dump_call := fun _ _ _ => .ok ""
  toast_get := .ok none
  wait_activity_call := fun _ _ => .ok true
  wait_text := fun _ _ => .ok elDefault
  wait_resourceId := fun _ _ => .ok elDefault
  wait_description := fun _ _ => .ok elDefault
  sel_text := fun _ => elDefault
  sel_resourceId := fun _ => elDefault
  sel_description := fun _ => elDefault
  scroll_text := fun _ => .ok elDefault
  scroll_resourceId := fun _ => .ok elDefault
  scroll_description := fun _ => .ok elDefault

/-! Tool models: device_tools.py. -/

/-- mcp_health embeds the health-check tool (device_tools.py): it performs no
external call and returns a fixed greeting string. -/
def mcp_health : String :=
  "Hello, world! MCP Android Device Operator server is running."

/-- DeviceStatusResp is the response dict shape of get_device_status. -/
structure DeviceStatusResp where
  adb_available : Bool
  connected_devices : List String
  device_connected : Bool
  device_info : PyDict
  screen_on : Bool
  error : Option String
  ready_for_automation : Bool
deriving Repr

/-- statusDeviceInfo builds the five-field basic device-info dict of
get_device_status from the library info dict; the chained gets on the nested
version dict can raise when that entry is not a dict. -/
def statusDeviceInfo (info : PyDict) : Except String PyDict :=
  match vGet (pyGet info "version" (.dict [])) "release" (.str "") with
  | .error e => .error e
  | .ok release =>
    match vGet (pyGet info "version" (.dict [])) "sdk" (.int 0) with
    | .error e => .error e
    | .ok sdk =>
      .ok [("manufacturer", pyGet info "manufacturer" (.str "")),
           ("model", pyGet info "model" (.str "")),
           ("serial", pyGet info "serial" (.str "")),
           ("version", release),
           ("sdk", sdk)]

/-- get_device_status embeds the tool of the same name (device_tools.py).
The status dict is built up exactly as in the source: the bridge check, the
device enumeration with its own except clause, the early return when no
device is listed, and the inner connection try whose except clause keeps the
fields mutated before the raising call. -/
def get_device_status (env : Env) : DeviceStatusResp :=
  match env.adb_path with
  | none =>
    ⟨false, [], false, [], false,
     some "ADB not available in PATH. Please install Android SDK platform-tools.",
     false⟩
  | some _ =>
    match env.adb_devices with
    | .error e =>
      ⟨true, [], false, [], false,
       some ("Failed to check connected devices: " ++ e), false⟩
    | .ok out =>
      let devices := parse_adb_devices out
      let status : DeviceStatusResp := ⟨true, devices, false, [], false, none, false⟩
      if devices.isEmpty then
        { status with
            error := some "No devices connected. Please connect device and enable USB debugging." }
      else
        match (match env.connect none with
               | .error e => .error e
               | .ok _ =>
                 match env.devInfo with
                 | .error e => .error e
                 | .ok info => statusDeviceInfo info : Except String PyDict) with
        | .error e =>
          { status with error := some ("Device connection failed: " ++ e) }
        | .ok di =>
          let status1 := { status with device_connected := true, device_info := di }
          match env.screen_on_call with
          | .error e =>
            { status1 with error := some ("Device connection failed: " ++ e) }
          | .ok so =>
            { status1 with screen_on := so, ready_for_automation := true }

/-- InfoResp is the response dict shape shared by connect_device and
get_device_info: success flag, device-info payload, error and device id. -/
structure InfoResp where
  success : Bool
  device_info : PyDict
  error : Option String
  device_id : Option String
deriving Repr

/-- connectDeviceInfo builds the seven-field device-info dict of
connect_device from the library info dict. -/
def connectDeviceInfo (info : PyDict) : Except String PyDict :=
  match vGet (pyGet info "version" (.dict [])) "release" (.str "") with
  | .error e => .error e
  | .ok release =>
    match vGet (pyGet info "version" (.dict [])) "sdk" (.int 0) with
    | .error e => .error e
    | .ok sdk =>
      match vGet (pyGet info "display" (.dict [])) "density" (.str "") with
      | .error e => .error e
      | .ok density =>
        .ok [("manufacturer", pyGet info "manufacturer" (.str "")),
             ("model", pyGet info "model" (.str "")),
             ("serial", pyGet info "serial" (.str "")),
             ("version", release),
             ("sdk", sdk),
             ("display", density),
             ("product", pyGet info "productName" (.str ""))]

/-- connect_device embeds the tool of the same name (device_tools.py): bridge
check, device enumeration guarded by a bare except, empty-enumeration early
return, then connect and info retrieval guarded by the outer except. -/
def connect_device (env : Env) (device_id : Option String) : InfoResp :=
  match env.adb_path with
  | none => ⟨false, [], some "ADB is not available in PATH", device_id⟩
  | some _ =>
    match env.adb_devices with
    | .error _ =>
      ⟨false, [], some "Failed to check connected devices via ADB", device_id⟩
    | .ok out =>
      let devices := parse_adb_devices out
      if devices.isEmpty then
        ⟨false, [],
         some "No Android devices connected. Please connect a device and ensure USB debugging is enabled.",
         device_id⟩
      else
        match (match env.connect device_id with
               | .error e => .error e
               | .ok _ =>
                 match env.devInfo with
                 | .error e => .error e
                 | .ok info => connectDeviceInfo info : Except String PyDict) with
        | .error e =>
          ⟨false, [], some ("Failed to connect to device: " ++ e), device_id⟩
        | .ok di =>
          ⟨true, di, none, pyOrStr env.serial device_id⟩

/-- get_device_info embeds the tool of the same name (device_tools.py): one
try block around connect, info, window size, battery, wifi and screen state,
whose except clause produces the structured failure response. -/
def get_device_info (env : Env) (device_id : Option String) : InfoResp :=
  match (match env.connect device_id with
         | .error e => .error e
         | .ok _ =>
           match env.devInfo with
           | .error e => .error e
           | .ok info =>
             match env.window_size with
             | .error e => .error e
             | .ok wh =>
               match env.battery_info with
               | .error e => .error e
               | .ok battery =>
                 match env.wlan_ip with
                 | .error e => .error e
                 | .ok wip =>
                   match vGet (pyGet info "version" (.dict [])) "release" (.str "") with
                   | .error e => .error e
                   | .ok release =>
                     match vGet (pyGet info "version" (.dict [])) "sdk" (.int 0) with
                     | .error e => .error e
                     | .ok sdk =>
                       match env.screen_on_call with
                       | .error e => .error e
                       | .ok so =>
                         .ok [("serial", Value.str (env.serial.getD "")),
                              ("resolution", .str (toString wh.1 ++ "x" ++ toString wh.2)),
                              ("version", release),
                              ("sdk", sdk),
                              ("battery", battery),
                              ("wifi_ip", .str wip),
                              ("manufacturer", pyGet info "manufacturer" (.str "")),
                              ("model", pyGet info "model" (.str "")),
                              ("is_screen_on", .bool so),
                              ("product", pyGet info "productName" (.str ""))]
          : Except String PyDict) with
  | .error e => ⟨false, [], some ("Failed to get device info: " ++ e), device_id⟩
  | .ok di => ⟨true, di, none, pyOrStr env.serial device_id⟩

/-- CheckAdbResp is the response dict shape of check_adb_and_list_devices. -/
structure CheckAdbResp where
  adb_exists : Bool
  devices : List String
  error : Option String
deriving Repr, DecidableEq

/-- check_adb_and_list_devices embeds the tool of the same name
(device_tools.py).  The bridge lookup happens before the try block; the
except clause keeps adb_exists true and stores the raw exception text. -/
def check_adb_and_list_devices (env : Env) : CheckAdbResp :=
  match env.adb_path with
  | none => ⟨false, [], some "adb command not found in PATH"⟩
  | some _ =>
    match env.adb_devices with
    | .ok out => ⟨true, parse_adb_devices out, none⟩
    | .error e => ⟨true, [], some e⟩

/-! Tool models: app_tools.py. -/

/-- AppsResp is the response dict shape of get_installed_apps. -/
structure AppsResp where
  success : Bool
  apps : List String
  count : Nat
  error : Option String
  device_id : Option String
deriving Repr, DecidableEq

/-- get_installed_apps embeds the tool of the same name (app_tools.py): the
bridge check and the connect and app_list calls sit inside one try whose
except clause produces the structured failure response. -/
def get_installed_apps (env : Env) (device_id : Option String) : AppsResp :=
  match env.adb_path with
  | none => ⟨false, [], 0, some "ADB is not available in PATH", device_id⟩
  | some _ =>
    match env.connect device_id with
    | .error e =>
      ⟨false, [], 0, some ("Failed to get installed apps: " ++ e), device_id⟩
    | .ok _ =>
      match env.app_list with
      | .error e =>
        ⟨false, [], 0, some ("Failed to get installed apps: " ++ e), device_id⟩
      | .ok apps =>
        ⟨true, apps, apps.length, none, pyOrStr env.serial device_id⟩

/-- get_current_app embeds the tool of the same name (app_tools.py).  It is
written with no try block in the source, so both the connect exception and
the current-app exception propagate to the caller: its result type is the
raw Except outcome, unlike every wrapped tool. -/
def get_current_app (env : Env) (device_id : Option String) : Except String PyDict :=
  match env.connect device_id with
  | .error e => .error e
  | .ok _ => env.app_current

/-- start_app embeds the tool of the same name (app_tools.py): connect,
app_start, and when wait is set an app_wait whose pid-or-None result is
compared against None; any exception is caught and yields false. -/
def start_app (env : Env) (package_name : String) (device_id : Option String)
    (wait : Bool) : Bool :=
  match env.connect device_id with
  | .error _ => false
  | .ok _ =>
    match env.app_start package_name with
    | .error _ => false
    | .ok _ =>
      if wait then
        match env.app_wait package_name with
        | .error _ => false
        | .ok pid => pid != none
      else true

/-- stop_app embeds the tool of the same name (app_tools.py). -/
def stop_app (env : Env) (package_name : String) (device_id : Option String) : Bool :=
  match env.connect device_id with
  | .error _ => false
  | .ok _ =>
    match env.app_stop package_name with
    | .error _ => false
    | .ok _ => true

/-- stop_all_apps embeds the tool of the same name (app_tools.py). -/
def stop_all_apps (env : Env) (device_id : Option String) : Bool :=
  match env.connect device_id with
  | .error _ => false
  | .ok _ =>
    match env.app_stop_all with
    | .error _ => false
    | .ok _ => true

/-- clear_app_data embeds the tool of the same name (app_tools.py). -/
def clear_app_data (env : Env) (package_name : String) (device_id : Option String) : Bool :=
  match env.connect device_id with
  | .error _ => false
  | .ok _ =>
    match env.app_clear package_name with
    | .error _ => false
    | .ok _ => true

/-! Tool models: screen_tools.py. -/

/-- screen_on embeds the tool of the same name (screen_tools.py): connect,
then the screen-on device call; any exception yields false. -/
def screen_on (env : Env) (device_id : Option String) : Bool :=
  match env.connect device_id with
  | .error _ => false
  | .ok _ =>
    match env.screen_on_call with
    | .error _ => false
    | .ok _ => true

/-- screen_off embeds the tool of the same name (screen_tools.py). -/
def screen_off (env : Env) (device_id : Option String) : Bool :=
  match env.connect device_id with
  | .error _ => false
  | .ok _ =>
    match env.screen_off_call with
    | .error _ => false
    | .ok _ => true

/-- unlock_screen embeds the tool of the same name (screen_tools.py):
connect, read info, index the screenOn entry, issue the screen-on call only
when that value is falsy, then the unlock gesture; any exception yields
false. -/
def unlock_screen (env : Env) (device_id : Option String) : Bool :=
  match env.connect device_id with
  | .error _ => false
  | .ok _ =>
    match env.devInfo with
    | .error _ => false
    | .ok info =>
      match pyIndex info "screenOn" with
      | .error _ => false
      | .ok son =>
        match (if !truthyV son then env.screen_on_call else .ok true) with
        | .error _ => false
        | .ok _ =>
          match env.unlock with
          | .error _ => false
          | .ok _ => true

/-- wait_for_screen_on_interval is the number of seconds passed to
asyncio.sleep between two successive screen polls in wait_for_screen_on. -/
def wait_for_screen_on_interval : Nat := 1

/-- wfsoLoop embeds the while-not-screen-on loop of wait_for_screen_on: the
k-th poll is consulted; a truthy poll exits the loop with the confirmation
string; a raised exception propagates (the loop is inside no try block).
The fuel argument bounds how many polls the embedding unrolls: a none result
means the loop was still running when the fuel ran out. -/
def wfsoLoop (polls : Nat → Except String Bool) : Nat → Nat → Except String (Option String)
  | 0, _ => .ok none
  | fuel + 1, k =>
    match polls k with
    | .error e => .error e
    | .ok true => .ok (some "Screen is now on")
    | .ok false => wfsoLoop polls fuel (k + 1)

/-- wait_for_screen_on embeds the tool of the same name (screen_tools.py).
The connect call sits outside any try block, so its exception propagates;
the poll loop likewise propagates any exception of the screen query. -/
def wait_for_screen_on (env : Env) (device_id : String) (fuel : Nat) :
    Except String (Option String) :=
  match env.connect (some device_id) with
  | .error e => .error e
  | .ok _ => wfsoLoop env.screen_polls fuel 0

/-! Tool models: input_tools.py. -/

/-- press_key embeds the tool of the same name (input_tools.py). -/
def press_key (env : Env) (key : String) (device_id : Option String) : Bool :=
  match env.connect device_id with
  | .error _ => false
  | .ok _ =>
    match env.press key with
    | .error _ => false
    | .ok _ => true

/-- click embeds the tool of the same name (input_tools.py): connect, the
three-way selector dispatch on the wait call with a ValueError raised on any
other tag, the truthiness-and-exists test, then the click gesture; any
exception is caught and yields false. -/
def click (env : Env) (selector selector_type : String) (timeout : Rat)
    (device_id : Option String) : Bool :=
  match env.connect device_id with
  | .error _ => false
  | .ok _ =>
    match (if selector_type = "text" then env.wait_text selector timeout
           else if selector_type = "resourceId" then env.wait_resourceId selector timeout
           else if selector_type = "description" then env.wait_description selector timeout
           else .error ("Invalid selector_type: " ++ selector_type)) with
    | .error _ => false
    | .ok el =>
      match (if el.truthy then el.ex else .ok false) with
      | .error _ => false
      | .ok cond =>
        if cond then
          match el.click_act with
          | .error _ => false
          | .ok _ => true
        else false

/-- long_click embeds the tool of the same name (input_tools.py): the
selector construction does not wait; the dispatch and gesture follow the
same shape as click. -/
def long_click (env : Env) (selector selector_type : String) (duration : Rat)
    (device_id : Option String) : Bool :=
  match env.connect device_id with
  | .error _ => false
  | .ok _ =>
    match (if selector_type = "text" then .ok (env.sel_text selector)
           else if selector_type = "resourceId" then .ok (env.sel_resourceId selector)
           else if selector_type = "description" then .ok (env.sel_description selector)
           else .error ("Invalid selector_type: " ++ selector_type) :
           Except String El) with
    | .error _ => false
    | .ok el =>
      match (if el.truthy then el.ex else .ok false) with
      | .error _ => false
      | .ok cond =>
        if cond then
          match el.long_click_act duration with
          | .error _ => false
          | .ok _ => true
        else false

/-- swipe embeds the tool of the same name (input_tools.py). -/
def swipe (env : Env) (start_x start_y end_x end_y duration : Rat)
    (device_id : Option String) : Bool :=
  match env.connect device_id with
  | .error _ => false
  | .ok _ =>
    match env.swipe_call start_x start_y end_x end_y duration with
    | .error _ => false
    | .ok _ => true

/-- drag embeds the tool of the same name (input_tools.py): selector
dispatch as in long_click, then the drag gesture to the target point. -/
def drag (env : Env) (selector selector_type : String) (to_x to_y : Int)
    (device_id : Option String) : Bool :=
  match env.connect device_id with
  | .error _ => false
  | .ok _ =>
    match (if selector_type = "text" then .ok (env.sel_text selector)
           else if selector_type = "resourceId" then .ok (env.sel_resourceId selector)
           else if selector_type = "description" then .ok (env.sel_description selector)
           else .error ("Invalid selector_type: " ++ selector_type) :
           Except String El) with
    | .error _ => false
    | .ok el =>
      match (if el.truthy then el.ex else .ok false) with
      | .error _ => false
      | .ok cond =>
        if cond then
          match el.drag_act to_x to_y with
          | .error _ => false
          | .ok _ => true
        else false

/-- send_text embeds the tool of the same name (input_tools.py). -/
def send_text (env : Env) (text : String) (clear : Bool)
    (device_id : Option String) : Bool :=
  match env.connect device_id with
  | .error _ => false
  | .ok _ =>
    match env.send_keys text clear with
    | .error _ => false
    | .ok _ => true

/-! Tool models: inspection_tools.py. -/

/-- elementInfoKeys lists the nine field names of the ElementInfo response
shape declared in inspection_tools.py, in declaration order. -/
def elementInfoKeys : List String :=
  ["text", "resourceId", "description", "className", "enabled", "clickable",
   "bounds", "selected", "focused"]

/-- get_element_info embeds the tool of the same name (inspection_tools.py):
connect, selector dispatch on the wait call, and on a found element the
nine-field descriptor built with defaulted gets from the element info dict;
a missing element and any exception both yield the empty dict. -/
def get_element_info (env : Env) (selector selector_type : String) (timeout : Rat)
    (device_id : Option String) : PyDict :=
  match env.connect device_id with
  | .error _ => []
  | .ok _ =>
    match (if selector_type = "text" then env.wait_text selector timeout
           else if selector_type = "resourceId" then env.wait_resourceId selector timeout
           else if selector_type = "description" then env.wait_description selector timeout
           else .error ("Invalid selector_type: " ++ selector_type)) with
    | .error _ => []
    | .ok el =>
      match (if el.truthy then el.ex else .ok false) with
      | .error _ => []
      | .ok cond =>
        if cond then
          match el.elInfo with
          | .error _ => []
          | .ok info =>
            [("text", pyGet info "text" (.str "")),
             ("resourceId", pyGet info "resourceId" (.str "")),
             ("description", pyGet info "contentDescription" (.str "")),
             ("className", pyGet info "className" (.str "")),
             ("enabled", pyGet info "enabled" (.bool false)),
             ("clickable", pyGet info "clickable" (.bool false)),
             ("bounds", pyGet info "bounds" (.dict [])),
             ("selected", pyGet info "selected" (.bool false)),
             ("focused", pyGet info "focused" (.bool false))]
        else []

/-- wait_for_element embeds the tool of the same name (inspection_tools.py):
the text and resourceId branches return the wait result itself (its
truthiness), the description branch tests the result against None and reads
its exists attribute; an unknown tag raises a ValueError caught by the
surrounding except. -/
def wait_for_element (env : Env) (selector selector_type : String) (timeout : Rat)
    (device_id : Option String) : Bool :=
  match env.connect device_id with
  | .error _ => false
  | .ok _ =>
    if selector_type = "text" then
      match env.wait_text selector timeout with
      | .error _ => false
      | .ok el => el.truthy
    else if selector_type = "resourceId" then
      match env.wait_resourceId selector timeout with
      | .error _ => false
      | .ok el => el.truthy
    else if selector_type = "description" then
      match env.wait_description selector timeout with
      | .error _ => false
      | .ok el =>
        match (if !el.isNone then el.ex else .ok false) with
        | .error _ => false
        | .ok b => b
    else
      match (.error ("Invalid selector_type: " ++ selector_type) :
             Except String Bool) with
      | .error _ => false
      | .ok b => b

/-- scroll_to embeds the tool of the same name (inspection_tools.py): the
scroll-to-element search per selector kind, with the description branch
testing the result against None and its exists attribute. -/
def scroll_to (env : Env) (selector selector_type : String)
    (device_id : Option String) : Bool :=
  match env.connect device_id with
  | .error _ => false
  | .ok _ =>
    if selector_type = "text" then
      match env.scroll_text selector with
      | .error _ => false
      | .ok el => el.truthy
    else if selector_type = "resourceId" then
      match env.scroll_resourceId selector with
      | .error _ => false
      | .ok el => el.truthy
    else if selector_type = "description" then
      match env.scroll_description selector with
      | .error _ => false
      | .ok el =>
        match (if !el.isNone then el.ex else .ok false) with
        | .error _ => false
        | .ok b => b
    else
      match (.error ("Invalid selector_type: " ++ selector_type) :
             Except String Bool) with
      | .error _ => false
      | .ok b => b

/-- screenshot embeds the tool of the same name (inspection_tools.py). -/
def screenshot (env : Env) (filename : String) (device_id : Option String) : Bool :=
  match env.connect device_id with
  | .error _ => false
  | .ok _ =>
    match env.screenshot_call filename with
    | .error _ => false
    | .ok _ => true

/-- dump_hierarchy embeds the tool of the same name (inspection_tools.py):
connect and the hierarchy dump with its three forwarded options; any
exception yields the empty string. -/
def dump_hierarchy (env : Env) (compressed pretty : Bool) (max_depth : Int)
    (device_id : Option String) : String :=
  match env.connect device_id with
  | .error _ => ""
  | .ok _ =>
    match env.dump_call compressed pretty max_depth with
    | .error _ => ""
    | .ok xml => xml

/-! Tool models: advanced_tools.py. -/

/-- get_toast embeds the tool of the same name (advanced_tools.py): the
message-or-None result is defaulted to the empty string with a Python or. -/
def get_toast (env : Env) (device_id : Option String) : String :=
  match env.connect device_id with
  | .error _ => ""
  | .ok _ =>
    match env.toast_get with
    | .error _ => ""
    | .ok (some s) => if s == "" then "" else s
    | .ok none => ""

/-- wait_activity embeds the tool of the same name (advanced_tools.py). -/
def wait_activity (env : Env) (activity : String) (timeout : Rat)
    (device_id : Option String) : Bool :=
  match env.connect device_id with
  | .error _ => false
  | .ok _ =>
    match env.wait_activity_call activity timeout with
    | .error _ => false
    | .ok b => b

/-! A minimal device-world model for the idempotence claim about screen_on.
The automation library is an external dependency, so its screen-state
semantics are modelled from the spec rather than from repository code. -/

/-- World is the observable device state relevant to the screen tools: device
reachability and whether the screen is lit. -/
structure World where
  reachable : Bool
  screen : Bool
deriving Repr, DecidableEq

/-- Modelled from the spec: the external automation library connect call,
which succeeds exactly on a reachable device. -/
def worldConnect (w : World) : Except String Unit :=
  if w.reachable then .ok () else .error "device not reachable"

/-- Modelled from the spec: the external library screen-on command, which on
a reachable device succeeds whether or not the screen is already lit. -/
def worldScreenOnCall (w : World) : Except String Bool :=
  if w.reachable then .ok true else .error "device not reachable"

/-- Modelled from the spec: the device state after the screen-on command has
run, with the screen lit on a reachable device. -/
def worldAfterScreenOn (w : World) : World :=
  if w.reachable then { w with screen := true } else w

/-- envOfWorld instantiates the call-outcome environment of one invocation
from the device world the invocation observes. -/
def envOfWorld (w : World) : Env :=
  { envDefault with
      connect := fun _ => worldConnect w,
      screen_on_call := worldScreenOnCall w }

/-- envAllError is the environment in which every external call that can
raise does raise, with the given message.  It exercises the except clause of
every wrapped tool. -/
def envAllError (e : String) : Env where
  adb_path := some "adb"
  adb_devices := .error e
  connect := fun _ => .error e
  serial := none
  devInfo := .error e
  window_size := .error e
  battery_info := .error e
  wlan_ip := .error e
  screen_on_call := .error e
  screen_off_call := .error e
  screen_polls := fun _ => .error e
  unlock := .error e
  app_list := .error e
  app_current := .error e
  app_start := fun _ => .error e
  app_wait := fun _ => .error e
  app_stop := fun _ => .error e
  app_stop_all := .error e
  app_clear := fun _ => .error e
  press := fun _ => .error e
  swipe_call := fun _ _ _ _ _ => .error e
  send_keys := fun _ _ => .error e
  screenshot_call := fun _ => .error e
  dump_call := fun _ _ _ => .error e
  toast_get := .error e
  wait_activity_call := fun _ _ => .error e
  wait_text := fun _ _ => .error e
  wait_resourceId := fun _ _ => .error e
  wait_description := fun _ _ => .error e
  sel_text := fun _ => elDefault
  sel_resourceId := fun _ => elDefault
  sel_description := fun _ => elDefault
  scroll_text := fun _ => .error e
  scroll_resourceId := fun _ => .error e
  scroll_description := fun _ => .error e

/-! Claim theorems. -/

/-- C1: for every selector-consuming operation (click, long_click, drag,
get_element_info, wait_for_element, scroll_to), a selector-kind tag outside
the closed set of text, resourceId and description yields the failure result
(false, or the empty descriptor for get_element_info) in every environment:
the raised validation error is caught at the operation boundary and never
propagates to the caller. -/
theorem selector_dispatch_invalid_kind_fails (env : Env) (sel st : String)
    (t dur : Rat) (tx ty : Int) (did : Option String)
    (h1 : st ≠ "text") (h2 : st ≠ "resourceId") (h3 : st ≠ "description") :
    click env sel st t did = false ∧
    long_click env sel st dur did = false ∧
    drag env sel st tx ty did = false ∧
    get_element_info env sel st t did = [] ∧
    wait_for_element env sel st t did = false ∧
    scroll_to env sel st did = false := by
  unfold click long_click drag get_element_info wait_for_element scroll_to
  cases env.connect did <;> simp [h1, h2, h3]

/-- Witness for C1 at the concrete invalid tag xpath. -/
theorem selector_dispatch_invalid_kind_fails_witness :
    click envDefault "OK" "xpath" 10 none = false ∧
    long_click envDefault "OK" "xpath" 1 none = false ∧
    drag envDefault "OK" "xpath" 3 4 none = false ∧
    get_element_info envDefault "OK" "xpath" 10 none = [] ∧
    wait_for_element envDefault "OK" "xpath" 10 none = false ∧
    scroll_to envDefault "OK" "xpath" none = false :=
  selector_dispatch_invalid_kind_fails envDefault "OK" "xpath" 10 1 3 4 none
    (by decide) (by decide) (by decide)

/-- deviceRowToken is the per-row reading of the enumeration parser: a
non-blank row contributes its first whitespace token exactly when its second
token equals the string device. -/
def deviceRowToken (line : String) : Option String :=
  if pyStrip line != "" then
    match pySplitWs line with
    | a :: b :: _ => if b = "device" then some a else none
    | _ => none
  else none

/-- parseDeviceLoop_eq_filterMap: the accumulation loop keeps exactly the
first token of every non-blank row whose second token equals device. -/
theorem parseDeviceLoop_eq_filterMap (l : List String) :
    parseDeviceLoop l = l.filterMap deviceRowToken := by
  induction l with
  | nil => rfl
  | cons line rest ih =>
    simp only [parseDeviceLoop, List.filterMap_cons, deviceRowToken]
    by_cases hs : pyStrip line != ""
    · simp only [hs, if_true]
      cases hps : pySplitWs line with
      | nil => simp [ih]
      | cons a tl =>
        cases tl with
        | nil => simp [ih]
        | cons b tl2 =>
          by_cases hb : b = "device"
          · simp [hb, ih]
          · simp [hb, ih]
    · simp only [Bool.not_eq_true] at hs
      simp [hs, ih]

/-- adbOutC2 is the concrete bridge output of the claim: a header line
followed by a ready device row and an unauthorized device row. -/
def adbOutC2 : String :=
  "List of devices attached\nSERIAL1\tdevice\nSERIAL2\tunauthorized"

/-- envC2 is an environment whose bridge enumeration returns adbOutC2. -/
def envC2 : Env :=
  { envDefault with adb_devices := .ok adbOutC2 }

/-- C2: the device-enumeration parser shared by check_adb_and_list_devices,
get_device_status and connect_device skips the header line and keeps, from
every non-blank remaining line split on whitespace, exactly the first tokens
of rows whose second token equals device; on the concrete output with rows
SERIAL1 device and SERIAL2 unauthorized it returns exactly SERIAL1, as
observed through both enumeration tools. -/
theorem adb_device_enumeration_parse (stdout : String) :
    parse_adb_devices stdout =
      ((pySplitlines (pyStrip stdout)).drop 1).filterMap deviceRowToken ∧
    parse_adb_devices adbOutC2 = ["SERIAL1"] ∧
    (check_adb_and_list_devices envC2).devices = ["SERIAL1"] ∧
    (get_device_status envC2).connected_devices = ["SERIAL1"] := by
  refine ⟨?_, ?_, ?_, ?_⟩
  · exact parseDeviceLoop_eq_filterMap _
  · decide
  · decide
  · decide

/-- C3: when start_app is called with wait set and the library wait call
completes normally without the package pid appearing (it returns None), the
tool returns false as a normal value; its result type is Bool, so no
exception reaches the caller. -/
theorem start_app_wait_no_foreground_returns_false (env : Env)
    (pkg : String) (did : Option String)
    (hc : env.connect did = .ok ())
    (hs : env.app_start pkg = .ok ())
    (hw : env.app_wait pkg = .ok none) :
    start_app env pkg did true = false := by
  unfold start_app
  rw [hc, hs, hw]
  rfl

/-- Witness for C3 on an environment whose wait-for-foreground call returns
None for the package com.example.app. -/
theorem start_app_wait_no_foreground_returns_false_witness :
    start_app { envDefault with app_wait := fun _ => .ok none }
      "com.example.app" none true = false :=
  start_app_wait_no_foreground_returns_false _ "com.example.app" none rfl rfl rfl

/-- C4 counterexample: the claim says every operation other than
get_current_app catches all exceptions at its boundary, but wait_for_screen_on
has no exception handling either: with a raising connect call its fault
propagates to the caller instead of becoming a structured result. -/
theorem only_unguarded_operation_counterexample :
    wait_for_screen_on (envAllError "boom") "emulator-5554" 3 =
      .error "boom" := rfl

/-- C4 amended: get_current_app and wait_for_screen_on are the two
operations with no exception handling: each propagates the exception of an
underlying call (connect, the current-app query, or the screen poll)
uncaught, while every other operation maps any raising environment to its
normal failure result. -/
theorem unguarded_operations_amended (e : String) (did : Option String)
    (dids pkg key txt fn act sel st : String) (w clear c p : Bool)
    (m tx ty : Int) (t dur x1 y1 x2 y2 : Rat) (fuel : Nat) :
    get_current_app (envAllError e) did = .error e ∧
    get_current_app { envDefault with app_current := .error e } did = .error e ∧
    wait_for_screen_on (envAllError e) dids fuel = .error e ∧
    wait_for_screen_on { envDefault with screen_polls := fun _ => .error e }
      dids (fuel + 1) = .error e ∧
    mcp_health = "Hello, world! MCP Android Device Operator server is running." ∧
    get_device_status (envAllError e) =
      ⟨true, [], false, [], false,
       some ("Failed to check connected devices: " ++ e), false⟩ ∧
    connect_device (envAllError e) did =
      ⟨false, [], some "Failed to check connected devices via ADB", did⟩ ∧
    get_device_info (envAllError e) did =
      ⟨false, [], some ("Failed to get device info: " ++ e), did⟩ ∧
    check_adb_and_list_devices (envAllError e) = ⟨true, [], some e⟩ ∧
    get_installed_apps (envAllError e) did =
      ⟨false, [], 0, some ("Failed to get installed apps: " ++ e), did⟩ ∧
    start_app (envAllError e) pkg did w = false ∧
    stop_app (envAllError e) pkg did = false ∧
    stop_all_apps (envAllError e) did = false ∧
    clear_app_data (envAllError e) pkg did = false ∧
    screen_on (envAllError e) did = false ∧
    screen_off (envAllError e) did = false ∧
    unlock_screen (envAllError e) did = false ∧
    press_key (envAllError e) key did = false ∧
    click (envAllError e) sel st t did = false ∧
    long_click (envAllError e) sel st dur did = false ∧
    swipe (envAllError e) x1 y1 x2 y2 dur did = false ∧
    drag (envAllError e) sel st tx ty did = false ∧
    send_text (envAllError e) txt clear did = false ∧
    get_element_info (envAllError e) sel st t did = [] ∧
    wait_for_element (envAllError e) sel st t did = false ∧
    scroll_to (envAllError e) sel st did = false ∧
    screenshot (envAllError e) fn did = false ∧
    dump_hierarchy (envAllError e) c p m did = "" ∧
    get_toast (envAllError e) did = "" ∧
    wait_activity (envAllError e) act t did = false := by
  repeat' apply And.intro
  all_goals rfl

/-- envC5err is an environment in which the bridge enumeration subprocess
raises with an empty message. -/
def envC5err : Env :=
  { envDefault with adb_devices := .error "" }

/-- envC5conn is an environment in which the bridge lists one ready device
but the library connect call raises. -/
def envC5conn : Env :=
  { envDefault with adb_devices := .ok adbOutC2,
                    connect := fun _ => .error "boom" }

/-- C5 counterexample: when the enumeration subprocess raises inside
check_adb_and_list_devices, the response keeps the availability flag
adb_exists true and stores the raw exception text, which can be empty: the
claimed false flag, non-empty error string and empty defaults do not hold. -/
theorem dict_ops_failure_shape_counterexample :
    envC5err.adb_devices = .error "" ∧
    check_adb_and_list_devices envC5err = ⟨true, [], some ""⟩ :=
  ⟨rfl, rfl⟩

/-- appendPrefixNeEmpty: a string with a non-empty prefix is non-empty. -/
theorem appendPrefixNeEmpty (pre e : String) (h : pre.length ≠ 0) :
    pre ++ e ≠ "" := by
  intro hc
  have hl := congrArg String.length hc
  rw [String.length_append] at hl
  simp only [String.length_empty] at hl
  omega

/-- C5 amended: every dictionary-returning operation converts an underlying
exception into a structured dict instead of propagating it, but the shapes
differ per operation: connect_device, get_device_info and get_installed_apps
return success false, a non-empty error string, an empty payload and the
echoed device id; get_device_status returns ready_for_automation false with
a non-empty error while the fields mutated before the raising call
(adb_available, connected_devices, and on a screen-query failure even
device_connected and device_info) keep their values; and
check_adb_and_list_devices keeps adb_exists true and stores the raw, possibly
empty, exception text with an empty device list. -/
theorem dict_ops_exception_responses_amended (env : Env) (did : Option String)
    (e p out : String) (info di : PyDict) :
    (env.adb_path = some p → env.adb_devices = .error e →
       connect_device env did =
         ⟨false, [], some "Failed to check connected devices via ADB", did⟩) ∧
    (env.adb_path = some p → env.adb_devices = .ok out →
       parse_adb_devices out ≠ [] → env.connect did = .error e →
       connect_device env did =
         ⟨false, [], some ("Failed to connect to device: " ++ e), did⟩ ∧
       "Failed to connect to device: " ++ e ≠ "") ∧
    (env.connect did = .error e →
       get_device_info env did =
         ⟨false, [], some ("Failed to get device info: " ++ e), did⟩ ∧
       "Failed to get device info: " ++ e ≠ "") ∧
    (env.adb_path = some p → env.connect did = .error e →
       get_installed_apps env did =
         ⟨false, [], 0, some ("Failed to get installed apps: " ++ e), did⟩ ∧
       "Failed to get installed apps: " ++ e ≠ "") ∧
    (env.adb_path = some p → env.adb_devices = .error e →
       get_device_status env =
         ⟨true, [], false, [], false,
          some ("Failed to check connected devices: " ++ e), false⟩ ∧
       "Failed to check connected devices: " ++ e ≠ "") ∧
    (env.adb_path = some p → env.adb_devices = .ok out →
       parse_adb_devices out ≠ [] → env.connect none = .error e →
       get_device_status env =
         ⟨true, parse_adb_devices out, false, [], false,
          some ("Device connection failed: " ++ e), false⟩) ∧
    (env.adb_path = some p → env.adb_devices = .ok out →
       parse_adb_devices out ≠ [] → env.connect none = .ok () →
       env.devInfo = .ok info → statusDeviceInfo info = .ok di →
       env.screen_on_call = .error e →
       get_device_status env =
         ⟨true, parse_adb_devices out, true, di, false,
          some ("Device connection failed: " ++ e), false⟩) ∧
    (env.adb_path = some p → env.adb_devices = .error e →
       check_adb_and_list_devices env = ⟨true, [], some e⟩) := by
  refine ⟨?_, ?_, ?_, ?_, ?_, ?_, ?_, ?_⟩
  · intro hp ha
    unfold connect_device
    rw [hp, ha]
  · intro hp ha hne hc
    have hie : (parse_adb_devices out).isEmpty = false := by
      simpa [List.isEmpty_iff] using hne
    refine ⟨?_, appendPrefixNeEmpty _ e (by decide)⟩
    unfold connect_device
    rw [hp, ha]
    simp only [hie, Bool.false_eq_true, if_false, hc]
  · intro hc
    refine ⟨?_, appendPrefixNeEmpty _ e (by decide)⟩
    unfold get_device_info
    rw [hc]
  · intro hp hc
    refine ⟨?_, appendPrefixNeEmpty _ e (by decide)⟩
    unfold get_installed_apps
    rw [hp, hc]
  · intro hp ha
    refine ⟨?_, appendPrefixNeEmpty _ e (by decide)⟩
    unfold get_device_status
    rw [hp, ha]
  · intro hp ha hne hc
    have hie : (parse_adb_devices out).isEmpty = false := by
      simpa [List.isEmpty_iff] using hne
    unfold get_device_status
    rw [hp, ha]
    simp only [hie, Bool.false_eq_true, if_false, hc]
  · intro hp ha hne hc hi hd hs
    have hie : (parse_adb_devices out).isEmpty = false := by
      simpa [List.isEmpty_iff] using hne
    unfold get_device_status
    rw [hp, ha]
    simp only [hie, Bool.false_eq_true, if_false, hc, hi, hd, hs]
  · intro hp ha
    unfold check_adb_and_list_devices
    rw [hp, ha]

/-- Witness for C5 amended, discharging each hypothesis at concrete raising
environments. -/
theorem dict_ops_exception_responses_amended_witness :
    connect_device envC5err (some "S") =
      ⟨false, [], some "Failed to check connected devices via ADB", some "S"⟩ ∧
    connect_device envC5conn (some "S") =
      ⟨false, [], some ("Failed to connect to device: " ++ "boom"), some "S"⟩ ∧
    get_device_info envC5conn (some "S") =
      ⟨false, [], some ("Failed to get device info: " ++ "boom"), some "S"⟩ ∧
    get_installed_apps envC5conn (some "S") =
      ⟨false, [], 0, some ("Failed to get installed apps: " ++ "boom"), some "S"⟩ ∧
    get_device_status envC5err =
      ⟨true, [], false, [], false,
       some ("Failed to check connected devices: " ++ ""), false⟩ ∧
    get_device_status envC5conn =
      ⟨true, parse_adb_devices adbOutC2, false, [], false,
       some ("Device connection failed: " ++ "boom"), false⟩ ∧
    check_adb_and_list_devices envC5err = ⟨true, [], some ""⟩ := by
  have hne : parse_adb_devices adbOutC2 ≠ [] := by decide
  refine ⟨?_, ?_, ?_, ?_, ?_, ?_, ?_⟩
  · exact (dict_ops_exception_responses_amended envC5err (some "S") "" "adb" "" [] []).1
      rfl rfl
  · exact ((dict_ops_exception_responses_amended envC5conn (some "S") "boom" "adb"
      adbOutC2 [] []).2.1 rfl rfl hne rfl).1
  · exact ((dict_ops_exception_responses_amended envC5conn (some "S") "boom" "adb"
      adbOutC2 [] []).2.2.1 rfl).1
  · exact ((dict_ops_exception_responses_amended envC5conn (some "S") "boom" "adb"
      adbOutC2 [] []).2.2.2.1 rfl rfl).1
  · exact ((dict_ops_exception_responses_amended envC5err none "" "adb" "" [] []
      ).2.2.2.2.1 rfl rfl).1
  · exact (dict_ops_exception_responses_amended envC5conn none "boom" "adb"
      adbOutC2 [] []).2.2.2.2.2.1 rfl rfl hne rfl
  · exact (dict_ops_exception_responses_amended envC5err none "" "adb" "" [] []
      ).2.2.2.2.2.2.2 rfl rfl

/-- C6: unlock_screen reads the screen state from the device info, issues
the screen-on call exactly when the screen is off (when the screen is on the
result does not depend on that call at all, and when it is off a failing
screen-on call surfaces), then issues the unlock gesture; it returns true
when the performed steps complete without exception, and any exception at
any step yields false. -/
theorem unlock_screen_checks_state_then_unlocks (env : Env)
    (did : Option String) (info : PyDict) (v : Value) (e : String)
    (b : Bool) (x y : Except String Bool) :
    (env.connect did = .ok () → env.devInfo = .ok info →
      pyIndex info "screenOn" = .ok v → truthyV v = true →
      env.unlock = .ok () → unlock_screen env did = true) ∧
    (env.connect did = .ok () → env.devInfo = .ok info →
      pyIndex info "screenOn" = .ok v → truthyV v = true →
      unlock_screen { env with screen_on_call := x } did =
        unlock_screen { env with screen_on_call := y } did) ∧
    (env.connect did = .ok () → env.devInfo = .ok info →
      pyIndex info "screenOn" = .ok v → truthyV v = false →
      env.screen_on_call = .error e → unlock_screen env did = false) ∧
    (env.connect did = .ok () → env.devInfo = .ok info →
      pyIndex info "screenOn" = .ok v → truthyV v = false →
      env.screen_on_call = .ok b → env.unlock = .ok () →
      unlock_screen env did = true) ∧
    (env.connect did = .error e → unlock_screen env did = false) ∧
    (env.connect did = .ok () → env.devInfo = .error e →
      unlock_screen env did = false) ∧
    (env.connect did = .ok () → env.devInfo = .ok info →
      pyIndex info "screenOn" = .error e → unlock_screen env did = false) ∧
    (env.connect did = .ok () → env.devInfo = .ok info →
      pyIndex info "screenOn" = .ok v → truthyV v = true →
      env.unlock = .error e → unlock_screen env did = false) := by
  refine ⟨?_, ?_, ?_, ?_, ?_, ?_, ?_, ?_⟩
  · intro hc hi hs ht hu
    simp [unlock_screen, hc, hi, hs, ht, hu]
  · intro hc hi hs ht
    simp [unlock_screen, hc, hi, hs, ht]
  · intro hc hi hs ht hso
    simp [unlock_screen, hc, hi, hs, ht, hso]
  · intro hc hi hs ht hso hu
    simp [unlock_screen, hc, hi, hs, ht, hso, hu]
  · intro hc
    simp [unlock_screen, hc]
  · intro hc hi
    simp [unlock_screen, hc, hi]
  · intro hc hi hs
    simp [unlock_screen, hc, hi, hs]
  · intro hc hi hs ht hu
    simp [unlock_screen, hc, hi, hs, ht, hu]

/-- envScreenOn is an environment reporting a lit screen. -/
def envScreenOn : Env :=
  { envDefault with devInfo := .ok [("screenOn", .bool true)] }

/-- envScreenOff is an environment reporting a dark screen. -/
def envScreenOff : Env :=
  { envDefault with devInfo := .ok [("screenOn", .bool false)] }

/-- Witness for C6 at concrete screen-on and screen-off environments. -/
theorem unlock_screen_checks_state_then_unlocks_witness :
    unlock_screen envScreenOn none = true ∧
    unlock_screen { envScreenOn with screen_on_call := .error "x" } none =
      unlock_screen { envScreenOn with screen_on_call := .ok false } none ∧
    unlock_screen { envScreenOff with screen_on_call := .error "x" } none = false ∧
    unlock_screen envScreenOff none = true ∧
    unlock_screen { envScreenOff with connect := fun _ => .error "x" } none = false := by
  refine ⟨?_, ?_, ?_, ?_, ?_⟩
  · exact (unlock_screen_checks_state_then_unlocks envScreenOn none
      [("screenOn", .bool true)] (.bool true) "" true (.ok true) (.ok true)).1
      rfl rfl rfl rfl rfl
  · exact (unlock_screen_checks_state_then_unlocks envScreenOn none
      [("screenOn", .bool true)] (.bool true) "" true (.error "x") (.ok false)).2.1
      rfl rfl rfl rfl
  · exact (unlock_screen_checks_state_then_unlocks
      { envScreenOff with screen_on_call := .error "x" } none
      [("screenOn", .bool false)] (.bool false) "x" true (.ok true) (.ok true)).2.2.1
      rfl rfl rfl rfl rfl
  · exact (unlock_screen_checks_state_then_unlocks envScreenOff none
      [("screenOn", .bool false)] (.bool false) "" true (.ok true) (.ok true)).2.2.2.1
      rfl rfl rfl rfl rfl rfl
  · exact (unlock_screen_checks_state_then_unlocks
      { envScreenOff with connect := fun _ => .error "x" } none
      [("screenOn", .bool false)] (.bool false) "x" true (.ok true) (.ok true)).2.2.2.2.1
      rfl

/-- wfsoLoop_none_of_all_false: when every poll reports the screen off, the
loop is still running after any number of unrolled polls. -/
theorem wfsoLoop_none_of_all_false (p : Nat → Bool) (hp : ∀ n, p n = false) :
    ∀ fuel k, wfsoLoop (fun j => .ok (p j)) fuel k = .ok none := by
  intro fuel
  induction fuel with
  | zero => intro k; rfl
  | succ m ih =>
    intro k
    simp [wfsoLoop, hp k, ih]

/-- wfsoLoop_some_of_poll_true: when some poll from position k onward
reports the screen on, enough unrolled polls make the loop exit with the
confirmation string. -/
theorem wfsoLoop_some_of_poll_true (p : Nat → Bool) :
    ∀ n k, p (k + n) = true →
      ∃ fuel, wfsoLoop (fun j => .ok (p j)) fuel k =
        .ok (some "Screen is now on") := by
  intro n
  induction n with
  | zero =>
    intro k h
    refine ⟨1, ?_⟩
    simp only [Nat.add_zero] at h
    simp [wfsoLoop, h]
  | succ m ih =>
    intro k h
    have h' : p ((k + 1) + m) = true := by
      have hkm : (k + 1) + m = k + (m + 1) := by omega
      rw [hkm]; exact h
    obtain ⟨fuel, hf⟩ := ih (k + 1) h'
    by_cases hk : p k = true
    · refine ⟨1, ?_⟩
      simp [wfsoLoop, hk]
    · refine ⟨fuel + 1, ?_⟩
      have hk' : p k = false := by simpa using hk
      simp [wfsoLoop, hk', hf]

/-- C7: wait_for_screen_on polls the screen state at a fixed one-second
interval with no timeout bound: when some poll observes the screen on, the
loop returns the confirmation string after finitely many polls, and when
every poll observes the screen off it is still running after any number of
polls, so the call can block indefinitely. -/
theorem wait_for_screen_on_terminates_iff_poll_on (p : Nat → Bool)
    (did : String) :
    ((∃ n, p n = true) →
      ∃ fuel, wait_for_screen_on
          { envDefault with screen_polls := fun j => .ok (p j) } did fuel =
        .ok (some "Screen is now on")) ∧
    ((∀ n, p n = false) →
      ∀ fuel, wait_for_screen_on
          { envDefault with screen_polls := fun j => .ok (p j) } did fuel =
        .ok none) ∧
    wait_for_screen_on_interval = 1 := by
  refine ⟨?_, ?_, rfl⟩
  · rintro ⟨n, hn⟩
    have hn' : p (0 + n) = true := by simpa using hn
    obtain ⟨fuel, hf⟩ := wfsoLoop_some_of_poll_true p n 0 hn'
    exact ⟨fuel, hf⟩
  · intro hall fuel
    exact wfsoLoop_none_of_all_false p hall fuel 0

/-- Witness for C7: a poll sequence that turns on at step one terminates
with the confirmation string, and the all-off poll sequence is still
running after nine polls. -/
theorem wait_for_screen_on_terminates_iff_poll_on_witness :
    (∃ fuel, wait_for_screen_on
        { envDefault with screen_polls := fun j => .ok (j == 1) }
        "emulator-5554" fuel = .ok (some "Screen is now on")) ∧
    wait_for_screen_on { envDefault with screen_polls := fun _ => .ok false }
      "emulator-5554" 9 = .ok none := by
  constructor
  · exact (wait_for_screen_on_terminates_iff_poll_on (fun j => j == 1)
      "emulator-5554").1 ⟨1, rfl⟩
  · exact (wait_for_screen_on_terminates_iff_poll_on (fun _ => false)
      "emulator-5554").2.1 (fun _ => rfl) 9

/-- C8: get_element_info returns either the empty dict or a descriptor whose
keys are exactly the nine declared ElementInfo fields, in every environment;
in particular a raising connect call, a missing element and a raising wait
call each yield the empty dict, and no fault propagates (the result type is
a plain dict). -/
theorem get_element_info_fixed_shape (env : Env) (sel st : String) (t : Rat)
    (did : Option String) (e : String) (el : El) :
    (get_element_info env sel st t did = [] ∨
      (get_element_info env sel st t did).map Prod.fst = elementInfoKeys) ∧
    (env.connect did = .error e → get_element_info env sel st t did = []) ∧
    (env.connect did = .ok () → env.wait_text sel t = .ok el →
      el.truthy = false → get_element_info env sel "text" t did = []) ∧
    (env.connect did = .ok () → env.wait_text sel t = .error e →
      get_element_info env sel "text" t did = []) := by
  refine ⟨?_, ?_, ?_, ?_⟩
  · unfold get_element_info
    cases env.connect did
    · exact Or.inl rfl
    · repeat' split
      all_goals first
        | exact Or.inl rfl
        | exact Or.inr rfl
  · intro hc
    simp [get_element_info, hc]
  · intro hc hw ht
    simp [get_element_info, hc, hw, ht]
  · intro hc hw
    simp [get_element_info, hc, hw]

/-- Witness for C8 at a found element, a raising connect, a missing element
and a raising wait call. -/
theorem get_element_info_fixed_shape_witness :
    (get_element_info envDefault "OK" "text" 10 none = [] ∨
      (get_element_info envDefault "OK" "text" 10 none).map Prod.fst =
        elementInfoKeys) ∧
    get_element_info { envDefault with connect := fun _ => .error "x" }
      "OK" "text" 10 none = [] ∧
    get_element_info
      { envDefault with wait_text := fun _ _ => .ok { elDefault with truthy := false } }
      "OK" "text" 10 none = [] ∧
    get_element_info { envDefault with wait_text := fun _ _ => .error "x" }
      "OK" "text" 10 none = [] := by
  refine ⟨?_, ?_, ?_, ?_⟩
  · exact (get_element_info_fixed_shape envDefault "OK" "text" 10 none "x"
      elDefault).1
  · exact (get_element_info_fixed_shape
      { envDefault with connect := fun _ => .error "x" } "OK" "text" 10 none "x"
      elDefault).2.1 rfl
  · exact (get_element_info_fixed_shape
      { envDefault with wait_text := fun _ _ => .ok { elDefault with truthy := false } }
      "OK" "text" 10 none "x" { elDefault with truthy := false }).2.2.1 rfl rfl rfl
  · exact (get_element_info_fixed_shape
      { envDefault with wait_text := fun _ _ => .error "x" } "OK" "text" 10 none "x"
      elDefault).2.2.2 rfl rfl

/-- screen_on_run couples one screen_on invocation with the device state it
leaves behind: the screen-on command takes effect exactly when the connect
call succeeded (the library effect is modelled from the spec). -/
def screen_on_run (w : World) : Bool × World :=
  (screen_on (envOfWorld w) none,
   match worldConnect w with
   | .error _ => w
   | .ok _ => worldAfterScreenOn w)

/-- C9: invoking screen_on twice in succession on a reachable device whose
screen is already on raises no error (the result is a plain boolean) and
returns true both times; the second result equals the first. -/
theorem screen_on_idempotent_when_screen_on (w : World)
    (h1 : w.reachable = true) (_h2 : w.screen = true) :
    (screen_on_run w).1 = true ∧
    (screen_on_run (screen_on_run w).2).1 = true ∧
    (screen_on_run (screen_on_run w).2).1 = (screen_on_run w).1 := by
  refine ⟨?_, ?_, ?_⟩ <;>
    simp [screen_on_run, screen_on, envOfWorld, envDefault, worldConnect,
      worldScreenOnCall, worldAfterScreenOn, h1]

/-- Witness for C9 at the reachable, lit-screen world. -/
theorem screen_on_idempotent_when_screen_on_witness :
    (screen_on_run ⟨true, true⟩).1 = true ∧
    (screen_on_run (screen_on_run ⟨true, true⟩).2).1 = true ∧
    (screen_on_run (screen_on_run ⟨true, true⟩).2).1 =
      (screen_on_run ⟨true, true⟩).1 :=
  screen_on_idempotent_when_screen_on ⟨true, true⟩ rfl rfl

/-- C10: dump_hierarchy never propagates a fault (its result is a plain
string): a raising connect call and a raising dump call both yield the empty
string, and a successful dump of an empty hierarchy yields the same empty
string, so the caller cannot tell the error apart from an empty hierarchy
from the return value alone. -/
theorem dump_hierarchy_error_yields_empty (env : Env) (c p : Bool) (m : Int)
    (did : Option String) (e : String) :
    (env.connect did = .error e → dump_hierarchy env c p m did = "") ∧
    (env.connect did = .ok () → env.dump_call c p m = .error e →
      dump_hierarchy env c p m did = "") ∧
    (env.connect did = .ok () → env.dump_call c p m = .ok "" →
      dump_hierarchy env c p m did = "") := by
  refine ⟨?_, ?_, ?_⟩
  · intro hc
    simp [dump_hierarchy, hc]
  · intro hc hd
    simp [dump_hierarchy, hc, hd]
  · intro hc hd
    simp [dump_hierarchy, hc, hd]

/-- Witness for C10 at a raising connect, a raising dump call and an empty
successful dump. -/
theorem dump_hierarchy_error_yields_empty_witness :
    dump_hierarchy { envDefault with connect := fun _ => .error "x" }
      false true 50 none = "" ∧
    dump_hierarchy { envDefault with dump_call := fun _ _ _ => .error "x" }
      false true 50 none = "" ∧
    dump_hierarchy envDefault false true 50 none = "" := by
  refine ⟨?_, ?_, ?_⟩
  · exact (dump_hierarchy_error_yields_empty
      { envDefault with connect := fun _ => .error "x" } false true 50 none "x").1 rfl
  · exact (dump_hierarchy_error_yields_empty
      { envDefault with dump_call := fun _ _ _ => .error "x" } false true 50 none
      "x").2.1 rfl rfl
  · exact (dump_hierarchy_error_yields_empty envDefault false true 50 none
      "x").2.2 rfl rfl

end McpAndroid
